import Mathlib

/-!
Verification of the SafeBrowsing protocol manager against its
natural-language specification.

The repository ships only the unit test
(src/safe_browsing/protocol_manager_unittest.cc) for the protocol manager;
the implementation (chrome/browser/safe_browsing/protocol_manager.{h,cc}) is
not part of the source tree. The definitions below are therefore modelled
from the specification (spec.md sections 4.1 to 4.5 and 7), with every
behaviour that the unit test pins down (exact strings, exact backoff
values, exact backup-host selection) taken from the test's expectations.
-/

namespace SafeBrowsing

/-- `SBListChunkRanges`: the per-list chunk-range record handed to the
protocol manager by the delegate (list name plus textual add / sub
chunk-range strings). -/
structure SBListChunkRanges where
  name : String
  adds : String
  subs : String
deriving DecidableEq, Repr

/-- Modelled from the spec: section 4.1 `FormatRanges` (called `FormatList`
in the unit test, which is the name the missing protocol_manager.cc uses).
Emits `"<name>;a:<adds>:s:<subs>\n"`, omitting the `a:` / `s:` segment when
its range-string is empty and the inner `:` separator when either side is
missing. -/
def FormatList (l : SBListChunkRanges) : String :=
  let r0 := l.name ++ ";"
  let r1 :=
    if l.adds.isEmpty then r0
    else r0 ++ "a:" ++ l.adds ++ (if l.subs.isEmpty then "" else ":")
  let r2 := if l.subs.isEmpty then r1 else r1 ++ "s:" ++ l.subs
  r2 ++ "\n"

/-- The phishing list name used for default-list padding of the update
request body (`safe_browsing_util::kPhishingList` in the test). -/
def kPhishingList : String := "goog-phish-shavar"

/-- The malware list name used for default-list padding of the update
request body (`safe_browsing_util::kMalwareList` in the test). -/
def kMalwareList : String := "goog-malware-shavar"

/-- Modelled from the spec: the update request body builder of section 4.4
step 3 (part of the missing protocol_manager.cc). One `FormatList` line per
delegate-reported list, in order, followed by an empty-range line for each
of the two default lists the delegate did not report (phishing first, then
malware) - the default-list padding is pinned by the unit test
(`ExistingDatabase` and `ValidateUpdateFetcherRequest`). -/
def buildBodyAux : List SBListChunkRanges → Bool → Bool → String
  | [], foundPhish, foundMalware =>
      (if foundPhish then "" else FormatList ⟨kPhishingList, "", ""⟩) ++
      (if foundMalware then "" else FormatList ⟨kMalwareList, "", ""⟩)
  | l :: rest, foundPhish, foundMalware =>
      FormatList l ++
      buildBodyAux rest (foundPhish || l.name == kPhishingList)
        (foundMalware || l.name == kMalwareList)

/-- The POST body of an update request, built from the delegate's chunk
ranges. -/
def buildUpdateBody (lists : List SBListChunkRanges) : String :=
  buildBodyAux lists false false

/-- The spec's description of the update body, written independently of the
loop in `buildBodyAux`: the formatted lines in delegate order, then a line
with empty ranges for each default list that does not occur among the
reported list names. -/
def specUpdateBody (lists : List SBListChunkRanges) : String :=
  (lists.map FormatList).foldr (· ++ ·) "" ++
  (if lists.any (fun l => l.name == kPhishingList) then ""
   else FormatList ⟨kPhishingList, "", ""⟩) ++
  (if lists.any (fun l => l.name == kMalwareList) then ""
   else FormatList ⟨kMalwareList, "", ""⟩)

/-- Character-list version of `String.startsWith` (first argument is the
pattern): kept explicit so that concrete inputs evaluate inside the kernel. -/
def charsStartWith : List Char → List Char → Bool
  | [], _ => true
  | _ :: _, [] => false
  | p :: ps, c :: cs => p == c && charsStartWith ps cs

/-- `strStartsWith s p` tells whether the string `s` starts with `p`
(the `StartsWithASCII` test of the source, case-sensitive). -/
def strStartsWith (s p : String) : Bool := charsStartWith p.data s.data

/-- Whether the string `s` contains the character `c` (the
`find(c) != npos` test of the source). -/
def strContainsChar (s : String) (c : Char) : Bool := s.data.contains c

/-- Modelled from the spec: section 4.5 next-chunk (redirect) URL
construction (part of the missing protocol_manager.cc). A schemeless
fragment is prefixed with `https://`; a non-empty `additional_query` is
appended with `&` when the URL already has a query string and with `?`
otherwise (the bare token, no `=`). -/
def NextChunkUrl (additionalQuery : String) (u : String) : String :=
  let url :=
    if strStartsWith u "http://" || strStartsWith u "https://" then u
    else "https://" ++ u
  if additionalQuery.isEmpty then url
  else if strContainsChar url '?' then url ++ "&" ++ additionalQuery
  else url ++ "?" ++ additionalQuery

/-! ## Backoff policy (spec section 4.3)

Modelled from the spec: `GetNextUpdateInterval` and `HandleGetHashError`
live in the missing protocol_manager.cc. The schedule below follows the
spec's concrete table (1 error: 60 s; 2 errors: [30,60) min; doubling up to
a 480-minute ceiling reached at 6 errors), which is the reading the unit
tests `TestBackOffTimes` and `TestGetHashBackOffTimes` pin down; the fuzz
factor `f` is drawn once at construction with `0 ≤ f < 1` and multiplies
the doubling intervals as `(1 + f)`. All intervals are in seconds, as
rationals. -/

/-- The interval in seconds that the backoff policy returns after `n ≥ 1`
consecutive errors, for a fuzz factor `f`. -/
def errorBackOff (f : ℚ) (n : ℕ) : ℚ :=
  if n ≤ 1 then 60
  else if n ≤ 5 then (1 + f) * (2 ^ (n - 2) * 1800)
  else 28800

/-- Update-path backoff state: the count of consecutive update errors. -/
structure UpdateBackoffState where
  errorCount : ℕ
deriving DecidableEq, Repr

/-- Modelled from the spec: `GetNextUpdateInterval(back_off)`. On an error
it increments the error count and returns the schedule's interval; on
success it resets the error count to zero and returns the base interval.
Returns the interval together with the new state. -/
def GetNextUpdateInterval (f base : ℚ) (s : UpdateBackoffState) (backOff : Bool) :
    ℚ × UpdateBackoffState :=
  if backOff then
    (errorBackOff f (s.errorCount + 1), ⟨s.errorCount + 1⟩)
  else (base, ⟨0⟩)

/-- Runs a sequence of `GetNextUpdateInterval` calls from a state,
returning the list of returned intervals. -/
def runUpdateIntervals (f base : ℚ) : UpdateBackoffState → List Bool → List ℚ
  | _, [] => []
  | s, b :: bs =>
      let r := GetNextUpdateInterval f base s b
      r.1 :: runUpdateIntervals f base r.2 bs

/-- Get-hash backoff state: the error count and the absolute next-allowed
time (`none` models a null `base::Time`). Times are rational seconds. -/
structure GetHashState where
  gethashErrorCount : ℕ
  nextGetHashTime : Option ℚ
deriving DecidableEq, Repr

/-- Modelled from the spec: `HandleGetHashError(now)` (missing
protocol_manager.cc) increments the get-hash error count and records the
absolute next-allowed time `now +` the schedule's interval. -/
def HandleGetHashError (f : ℚ) (now : ℚ) (s : GetHashState) : GetHashState :=
  { gethashErrorCount := s.gethashErrorCount + 1
    nextGetHashTime := some (now + errorBackOff f (s.gethashErrorCount + 1)) }

/-- Iterated `HandleGetHashError` at a fixed `now`, starting from the
initial state (0 errors, null time). -/
def iterGetHashError (f now : ℚ) : ℕ → GetHashState
  | 0 => ⟨0, none⟩
  | n + 1 => HandleGetHashError f now (iterGetHashError f now n)

/-! ## Response parser (spec section 4.2) -/

/-- Splits a character list at the first occurrence of `c`; `none` when `c`
does not occur. -/
def splitFirstOn (c : Char) : List Char → Option (List Char × List Char)
  | [] => none
  | x :: xs =>
      if x == c then some ([], xs)
      else (splitFirstOn c xs).map (fun p => (x :: p.1, p.2))

/-- Splits a character list on every occurrence of `c` (the line split of
the response parser). Always returns at least one (possibly empty) piece. -/
def splitOnChar (c : Char) : List Char → List (List Char)
  | [] => [[]]
  | x :: xs =>
      match splitOnChar c xs with
      | [] => [[]]
      | h :: t => if x == c then [] :: h :: t else (x :: h) :: t

/-- Decimal digit value of a character, `none` for a non-digit. -/
def digitVal? (ch : Char) : Option ℕ :=
  if '0' ≤ ch ∧ ch ≤ '9' then some (ch.toNat - '0'.toNat) else none

/-- Accumulating decimal parse of a digit list. -/
def charsToNatAux : List Char → ℕ → Option ℕ
  | [], acc => some acc
  | ch :: cs, acc =>
      match digitVal? ch with
      | none => none
      | some d => charsToNatAux cs (acc * 10 + d)

/-- Parses a non-empty all-digit character list as a natural number. -/
def charsToNat? (cs : List Char) : Option ℕ :=
  if cs.isEmpty then none else charsToNatAux cs 0

/-- `SBChunkDelete`: a chunk-delete directive (`ad:` / `sd:` line) for a
list: the list name, the textual chunk range, and whether it deletes sub
chunks. -/
structure SBChunkDelete where
  listName : String
  chunkRange : String
  isSubDel : Bool
deriving DecidableEq, Repr

/-- The structured result of parsing an update response: reset flag, the
optional `n:` next-interval override in seconds, the chunk-delete
directives, and the redirect queue as (list name, url fragment) pairs in
response order. -/
structure ParsedUpdate where
  reset : Bool
  nextIntervalSec : Option ℕ
  deletes : List SBChunkDelete
  redirects : List (String × String)
deriving DecidableEq, Repr

/-- Modelled from the spec: the line-oriented update-response grammar of
section 4.2 (the parser invoked by the missing protocol_manager.cc).
Lines are decided by their prefix up to the first `:`; `i:` selects the
current list for subsequent `u:` / `ad:` / `sd:` lines; `n:` must carry a
decimal; `r:` must carry exactly `pleasereset`; empty lines are skipped;
any other line, or a directive with no current list, fails the whole
parse (the response is treated as atomically valid or invalid). -/
def parseUpdateLinesAux : List (List Char) → Option String → ParsedUpdate →
    Option ParsedUpdate
  | [], _, acc => some acc
  | line :: rest, cur, acc =>
      if line.isEmpty then parseUpdateLinesAux rest cur acc
      else
        match splitFirstOn ':' line with
        | none => none
        | some (cmd, val) =>
            let cmdS := String.mk cmd
            let valS := String.mk val
            if cmdS = "i" then
              if valS.isEmpty then none
              else parseUpdateLinesAux rest (some valS) acc
            else if cmdS = "u" then
              match cur with
              | none => none
              | some l =>
                  parseUpdateLinesAux rest cur
                    { acc with redirects := acc.redirects ++ [(l, valS)] }
            else if cmdS = "ad" then
              match cur with
              | none => none
              | some l =>
                  parseUpdateLinesAux rest cur
                    { acc with deletes := acc.deletes ++ [⟨l, valS, false⟩] }
            else if cmdS = "sd" then
              match cur with
              | none => none
              | some l =>
                  parseUpdateLinesAux rest cur
                    { acc with deletes := acc.deletes ++ [⟨l, valS, true⟩] }
            else if cmdS = "n" then
              match charsToNat? val with
              | none => none
              | some num =>
                  parseUpdateLinesAux rest cur { acc with nextIntervalSec := some num }
            else if cmdS = "r" then
              if valS = "pleasereset" then
                parseUpdateLinesAux rest cur { acc with reset := true }
              else none
            else none

/-- Parses a full update-response body; `none` is a parse failure. An
entirely empty body is valid and means "no changes". -/
def parseUpdateResponse (body : String) : Option ParsedUpdate :=
  parseUpdateLinesAux (splitOnChar '\n' body.data) none ⟨false, none, [], []⟩

/-- `SBChunkData`: one chunk decoded from a redirect (chunk payload)
response: add/sub kind, chunk number, declared hash length, and the raw
payload bytes (as characters). -/
structure SBChunkData where
  isAdd : Bool
  chunkNumber : ℕ
  hashLen : ℕ
  payload : List Char
deriving DecidableEq, Repr

/-- Takes one `\n`-terminated line off a character list; `none` when no
newline remains. -/
def takeLine : List Char → Option (List Char × List Char)
  | [] => none
  | c :: cs =>
      if c == '\n' then some ([], cs)
      else (takeLine cs).map (fun p => (c :: p.1, p.2))

/-- Modelled from the spec: the chunk-payload grammar of section 4.2. Each
chunk is a header line `a:<num>:<hashlen>:<payllen>` (or `s:`) followed by
exactly `<payllen>` raw bytes; a declared byte count exceeding the
remaining input is a parse error; an empty body holds no chunks. The fuel
argument bounds the number of chunks by the input length. -/
def parseChunksAux : ℕ → List Char → Option (List SBChunkData)
  | _, [] => some []
  | 0, _ :: _ => none
  | fuel + 1, s =>
      match takeLine s with
      | none => none
      | some (line, rest) =>
          match (splitOnChar ':' line).map String.mk with
          | [t, n, h, p] =>
              if t = "a" ∨ t = "s" then
                match charsToNat? n.data, charsToNat? h.data, charsToNat? p.data with
                | some cn, some hl, some pl =>
                    if pl ≤ rest.length then
                      match parseChunksAux fuel (rest.drop pl) with
                      | none => none
                      | some cks => some (⟨t == "a", cn, hl, rest.take pl⟩ :: cks)
                    else none
                | _, _, _ => none
              else none
          | _ => none

/-- Parses a redirect (chunk payload) response body into its chunk list;
`none` is a parse failure. -/
def parseChunkResponse (body : String) : Option (List SBChunkData) :=
  parseChunksAux body.data.length body.data

/-! ## Update / redirect state machine (spec sections 4.4 and 7)

Modelled from the spec: the update cycle of the missing
protocol_manager.cc, as an explicit step function over an event alphabet.
The spec's conservative reading of section 7 (no backup retry after a
parse failure of an HTTP-200 response) is NOT followed, because the unit
test `UpdateResponseBadBodyBackupSuccess` pins the opposite behaviour: a
200-but-malformed primary update response issues a backup request to the
"http" backup host. Backup-host classification of transport errors is
pinned by the tests: `ERR_INTERNET_DISCONNECTED` (and the OS-level
`ERR_NETWORK_CHANGED`) select the "network" backup, every other transport
failure the "connect" backup, and a non-2xx HTTP status the "http"
backup. -/

/-- net::ERR_CONNECTION_RESET. -/
def kErrConnectionReset : Int := -101

/-- net::ERR_INTERNET_DISCONNECTED. -/
def kErrInternetDisconnected : Int := -106

/-- net::ERR_NETWORK_CHANGED. -/
def kErrNetworkChanged : Int := -21

/-- The protocol configuration: primary and per-failure-kind backup URL
bases, client name, app version and the optional additional query
(empty string when unset). -/
structure ProtocolConfig where
  urlBase : String
  backupConnectBase : String
  backupHttpBase : String
  backupNetworkBase : String
  clientName : String
  version : String
  additionalQuery : String
deriving DecidableEq, Repr

/-- The update (`/downloads`) URL for a given URL base, with the fixed
query-parameter order client, appver, pver, additional query (the optional
API key of the source is absent in the modelled test environment). -/
def updateUrl (cfg : ProtocolConfig) (base : String) : String :=
  base ++ "/downloads?client=" ++ cfg.clientName ++ "&appver=" ++ cfg.version ++
    "&pver=2.2" ++
    (if cfg.additionalQuery.isEmpty then "" else "&" ++ cfg.additionalQuery)

/-- An observable delegate call of the protocol manager. -/
inductive DelegateCall
  | updateStarted
  | getChunks
  | addChunks (listName : String) (chunks : List SBChunkData)
  | deleteChunks (deletes : List SBChunkDelete)
  | resetDatabase
  | updateFinished (success : Bool)
deriving DecidableEq, Repr

/-- An observable output of one machine step: a delegate call or an issued
network request (url, POST body). -/
inductive Output
  | call (c : DelegateCall)
  | request (url : String) (body : String)
deriving DecidableEq, Repr

/-- The phase of the update cycle: idle, waiting for the primary update
response, waiting for the backup update response, waiting for a chunk
(redirect) fetch for a given list, or waiting for the delegate's AddChunks
completion callback. -/
inductive Phase
  | idle
  | waitingPrimary
  | waitingBackup
  | waitingChunk (listName : String)
  | waitingAddChunks
deriving DecidableEq, Repr

/-- The protocol manager's mutable state: current phase, pending redirect
queue, the saved request body (reused verbatim by the backup request), the
update error count, and whether a next update is scheduled
(`IsUpdateScheduled` in the test). -/
structure PMState where
  phase : Phase
  redirects : List (String × String)
  requestBody : String
  updateErrorCount : ℕ
  updateScheduled : Bool
deriving DecidableEq, Repr

/-- An input event: the start of a cycle together with the delegate's
GetChunks result, a network fetch completion (net status ok?, net error
code, HTTP code, body), the request-timeout timer, or the delegate's
AddChunks completion callback. -/
inductive Event
  | startUpdate (ranges : List SBListChunkRanges) (dbError : Bool)
  | fetchDone (netOk : Bool) (netError : Int) (code : ℕ) (body : String)
  | timeoutFired
  | addChunksDone
deriving DecidableEq, Repr

/-- Terminal failure of the current cycle: `UpdateFinished(false)`, the
error count incremented, and the next update scheduled through the backoff
error path. -/
def failCycle (s : PMState) : PMState × List Output :=
  ({ s with
      phase := .idle
      redirects := []
      updateErrorCount := s.updateErrorCount + 1
      updateScheduled := true },
   [.call (.updateFinished false)])

/-- Successful end of the current cycle: `UpdateFinished(true)`, the error
count reset, and the next update scheduled. -/
def finishCycleOk (s : PMState) : PMState × List Output :=
  ({ s with
      phase := .idle
      redirects := []
      updateErrorCount := 0
      updateScheduled := true },
   [.call (.updateFinished true)])

/-- Dequeues the next redirect (issuing one chunk fetch with an empty
body), or finishes the cycle successfully when the queue is drained. -/
def issueNextChunkOrFinish (cfg : ProtocolConfig) (s : PMState) :
    PMState × List Output :=
  match s.redirects with
  | [] => finishCycleOk s
  | (l, u) :: rest =>
      ({ s with phase := .waitingChunk l, redirects := rest },
       [.request (NextChunkUrl cfg.additionalQuery u) ""])

/-- Applies a successfully parsed update response: the reset directive
(if present) triggers one `ResetDatabase` call, the delete directives one
`DeleteChunks` call, then the redirect queue is installed and either the
first chunk fetch is issued or the cycle finishes successfully. -/
def applyUpdateResponse (cfg : ProtocolConfig) (s : PMState) (pu : ParsedUpdate) :
    PMState × List Output :=
  let resetOuts := if pu.reset then [Output.call .resetDatabase] else []
  let delOuts :=
    if pu.deletes.isEmpty then [] else [Output.call (.deleteChunks pu.deletes)]
  let r := issueNextChunkOrFinish cfg { s with redirects := pu.redirects }
  (r.1, resetOuts ++ delOuts ++ r.2)

/-- The backup URL base selected by the kind of failure of the primary
request: "http" for a completed request with a bad status, "network" for
the OS-level network-down errors, "connect" for any other transport
failure. -/
def backupBaseFor (cfg : ProtocolConfig) (netOk : Bool) (netError : Int) : String :=
  if netOk then cfg.backupHttpBase
  else if netError = kErrInternetDisconnected ∨ netError = kErrNetworkChanged then
    cfg.backupNetworkBase
  else cfg.backupConnectBase

/-- Issues the single backup update request: same body, same query
parameters, different URL base. -/
def issueBackup (cfg : ProtocolConfig) (s : PMState) (base : String) :
    PMState × List Output :=
  ({ s with phase := .waitingBackup },
   [.request (updateUrl cfg base) s.requestBody])

/-- One step of the update state machine. -/
def step (cfg : ProtocolConfig) (s : PMState) : Event → PMState × List Output
  | .startUpdate ranges dbError =>
      match s.phase with
      | .idle =>
          if dbError then
            ({ s with
                updateErrorCount := s.updateErrorCount + 1
                updateScheduled := true },
             [.call .updateStarted, .call .getChunks,
              .call (.updateFinished false)])
          else
            let body := buildUpdateBody ranges
            ({ s with
                phase := .waitingPrimary
                requestBody := body
                updateScheduled := false },
             [.call .updateStarted, .call .getChunks,
              .request (updateUrl cfg cfg.urlBase) body])
      | _ => (s, [])
  | .fetchDone netOk netError code body =>
      match s.phase with
      | .waitingPrimary =>
          if netOk && code == 200 then
            match parseUpdateResponse body with
            | some pu => applyUpdateResponse cfg s pu
            | none => issueBackup cfg s cfg.backupHttpBase
          else issueBackup cfg s (backupBaseFor cfg netOk netError)
      | .waitingBackup =>
          if netOk && code == 200 then
            match parseUpdateResponse body with
            | some pu => applyUpdateResponse cfg s pu
            | none => failCycle s
          else failCycle s
      | .waitingChunk l =>
          if netOk && code == 200 then
            match parseChunkResponse body with
            | some [] => issueNextChunkOrFinish cfg s
            | some (c :: cs) =>
                ({ s with phase := .waitingAddChunks },
                 [.call (.addChunks l (c :: cs))])
            | none => failCycle s
          else failCycle s
      | _ => (s, [])
  | .timeoutFired =>
      match s.phase with
      | .waitingPrimary => issueBackup cfg s cfg.backupConnectBase
      | .waitingBackup => failCycle s
      | _ => (s, [])
  | .addChunksDone =>
      match s.phase with
      | .waitingAddChunks => issueNextChunkOrFinish cfg s
      | _ => (s, [])

/-- Runs the machine over an event list, returning the final state and the
per-step output lists. -/
def run (cfg : ProtocolConfig) : PMState → List Event → PMState × List (List Output)
  | s, [] => (s, [])
  | s, e :: es =>
      let r := step cfg s e
      let t := run cfg r.1 es
      (t.1, r.2 :: t.2)

/-- The initial machine state. -/
def initState : PMState := ⟨.idle, [], "", 0, false⟩

/-- The configuration used by the unit tests (empty additional query, empty
API key environment). -/
def testConfig : ProtocolConfig :=
  ⟨"https://prefix.com/foo", "https://alt1-prefix.com/foo",
   "https://alt2-prefix.com/foo", "https://alt3-prefix.com/foo",
   "unittest", "1.0", ""⟩

/-- Whether an output is an issued network request. -/
def isRequestOut : Output → Bool
  | .request _ _ => true
  | .call _ => false

/-- The number of `ResetDatabase` calls among a list of outputs. -/
def countResetCalls (outs : List Output) : ℕ :=
  outs.countP (fun o => o == Output.call .resetDatabase)

/-- The number of `UpdateFinished b` calls among a list of outputs. -/
def countFinishedCalls (outs : List Output) (b : Bool) : ℕ :=
  outs.countP (fun o => o == Output.call (.updateFinished b))

/-- The update request body for an empty local database: the two default
lists with empty ranges. -/
def kDefaultUpdateBody : String := "goog-phish-shavar;\ngoog-malware-shavar;\n"

/-- The machine state while the primary update request of the tests'
empty-database cycle is outstanding. -/
def primaryWaiting : PMState :=
  ⟨.waitingPrimary, [], kDefaultUpdateBody, 0, false⟩

/-- The update response of the `MultipleRedirectResponsesWithChunks` test:
two redirect directives for the same list. -/
def mrUpdateBody : String :=
  "i:goog-phish-shavar\nu:redirect-server.example.com/one\nu:redirect-server.example.com/two\n"

/-- The event sequence of the `MultipleRedirectResponsesWithChunks` test:
start, update response with two redirects, first chunk response, first
AddChunks completion, second chunk response, second AddChunks
completion. -/
def mrEvents : List Event :=
  [.startUpdate [] false,
   .fetchDone true 0 200 mrUpdateBody,
   .fetchDone true 0 200 "a:4:4:9\nhost\x01aaaa",
   .addChunksDone,
   .fetchDone true 0 200 "a:5:4:9\nhost\x01bbbb",
   .addChunksDone]

/-! ## Backoff policy lemmas -/

theorem errorBackOff_le_one (f : ℚ) (n : ℕ) (h : n ≤ 1) : errorBackOff f n = 60 := by
  unfold errorBackOff
  rw [if_pos h]

theorem errorBackOff_doubling (f : ℚ) (n : ℕ) (h2 : 2 ≤ n) (h5 : n ≤ 5) :
    errorBackOff f n = (1 + f) * (2 ^ (n - 2) * 1800) := by
  unfold errorBackOff
  rw [if_neg (by omega), if_pos h5]

theorem errorBackOff_max (f : ℚ) (n : ℕ) (h : 6 ≤ n) : errorBackOff f n = 28800 := by
  unfold errorBackOff
  rw [if_neg (by omega), if_neg (by omega)]

theorem errorBackOff_lower (f : ℚ) (hf0 : 0 ≤ f) (n : ℕ) (h2 : 2 ≤ n) (h5 : n ≤ 5) :
    2 ^ (n - 2) * 1800 ≤ errorBackOff f n := by
  rw [errorBackOff_doubling f n h2 h5]
  have hX : (0 : ℚ) < 2 ^ (n - 2) * 1800 := by positivity
  nlinarith

theorem errorBackOff_upper (f : ℚ) (hf1 : f < 1) (n : ℕ) (h2 : 2 ≤ n) (h5 : n ≤ 5) :
    errorBackOff f n < 2 ^ (n - 1) * 1800 := by
  rw [errorBackOff_doubling f n h2 h5]
  have hn : n - 1 = (n - 2) + 1 := by omega
  rw [hn, pow_succ]
  have hX : (0 : ℚ) < 2 ^ (n - 2) * 1800 := by positivity
  nlinarith

theorem errorBackOff_mono (f : ℚ) (hf0 : 0 ≤ f) (hf1 : f < 1) (n : ℕ) (h1 : 1 ≤ n) :
    errorBackOff f n ≤ errorBackOff f (n + 1) := by
  rcases Nat.lt_or_ge n 6 with h6 | h6
  · interval_cases n <;>
      simp only [errorBackOff] <;> norm_num <;> nlinarith
  · rw [errorBackOff_max f n h6, errorBackOff_max f (n + 1) (by omega)]

theorem errorBackOff_le_max (f : ℚ) (_hf0 : 0 ≤ f) (hf1 : f < 1) (n : ℕ) :
    errorBackOff f n ≤ 28800 := by
  rcases le_or_lt n 1 with h | h
  · rw [errorBackOff_le_one f n h]; norm_num
  · rcases le_or_lt n 5 with h5 | h5
    · have := errorBackOff_upper f hf1 n (by omega) h5
      have hpow : (2 : ℚ) ^ (n - 1) ≤ 2 ^ 4 := by
        apply pow_le_pow_right₀ (by norm_num)
        omega
      nlinarith
    · rw [errorBackOff_max f n (by omega)]

/-! ## Claims about the backoff policy (C1, C8) -/

/-- C1 (amended): for every fuzz factor `0 ≤ f < 1` fixed at construction
and every state of the update backoff policy, a no-error call returns the
configured base interval and resets the error count to zero; an error call
increments the error count to `n` and returns `errorBackOff f n`, which is
exactly 60 s after 1 error, lies in `[2^(n-2)*30 min, 2^(n-1)*30 min)`
after `2 ≤ n ≤ 5` errors, and is exactly 480 min from the 6th error on;
the interval is non-decreasing in the error count from 1 error on and is
bounded above by 480 min for every error count. (The claim's exponent
`2^(n-1)` and its monotonicity from 0 errors are corrected.) -/
theorem C1_backoff_amended (f base : ℚ) (hf0 : 0 ≤ f) (hf1 : f < 1) :
    (∀ s : UpdateBackoffState, GetNextUpdateInterval f base s false = (base, ⟨0⟩)) ∧
    (∀ s : UpdateBackoffState,
        GetNextUpdateInterval f base s true =
          (errorBackOff f (s.errorCount + 1), ⟨s.errorCount + 1⟩)) ∧
    errorBackOff f 1 = 60 ∧
    (∀ n, 2 ≤ n → n ≤ 5 →
        2 ^ (n - 2) * 1800 ≤ errorBackOff f n ∧ errorBackOff f n < 2 ^ (n - 1) * 1800) ∧
    (∀ n, 6 ≤ n → errorBackOff f n = 28800) ∧
    (∀ n, 1 ≤ n → errorBackOff f n ≤ errorBackOff f (n + 1)) ∧
    (∀ n, errorBackOff f n ≤ 28800) := by
  refine ⟨fun s => rfl, fun s => rfl, errorBackOff_le_one f 1 le_rfl, ?_, ?_, ?_, ?_⟩
  · exact fun n h2 h5 =>
      ⟨errorBackOff_lower f hf0 n h2 h5, errorBackOff_upper f hf1 n h2 h5⟩
  · exact fun n h => errorBackOff_max f n h
  · exact fun n h => errorBackOff_mono f hf0 hf1 n h
  · exact fun n => errorBackOff_le_max f hf0 hf1 n

/-- Witness for C1 at the concrete fuzz factor 0 and the tested base
interval of 1800 s. -/
theorem C1_backoff_amended_witness :
    GetNextUpdateInterval 0 1800 ⟨7⟩ false = (1800, ⟨0⟩) ∧ errorBackOff 0 1 = 60 := by
  have h := C1_backoff_amended 0 1800 le_rfl zero_lt_one
  exact ⟨h.1 ⟨7⟩, h.2.2.1⟩

/-- C1 fails as stated: with the admissible fuzz factor 0 and base 1800 s,
the call sequence success-error-error returns 1800 s, 60 s, 1800 s; the
interval after the 2nd error (1800 s = 30 min) is below the claimed lower
bound `2^(2-1)*30 min = 3600 s`, and the step from 0 errors (1800 s) to 1
error (60 s) is decreasing, refuting claimed monotonicity. -/
theorem C1_backoff_counterexample :
    runUpdateIntervals 0 1800 ⟨0⟩ [false, true, true] = [1800, 60, 1800] ∧
    (1800 : ℚ) < 2 ^ (2 - 1) * 1800 ∧ (60 : ℚ) < 1800 := by
  refine ⟨?_, by norm_num, by norm_num⟩
  norm_num [runUpdateIntervals, GetNextUpdateInterval, errorBackOff]

/-- C8 (amended): every `HandleGetHashError(now)` call increments the
get-hash error count by one and sets the absolute next-allowed time to
`now` plus the backoff interval for the new error count: 60 s after the
first error, an interval in `[2^(n-2)*30 min, 2^(n-1)*30 min]` after
`2 ≤ n ≤ 5` errors, and exactly `now + 480 min` from the 6th error on.
(The claim's exponent `2^(n-1)` is corrected to `2^(n-2)`.) -/
theorem C8_gethash_amended (f now : ℚ) (hf0 : 0 ≤ f) (hf1 : f < 1) :
    (∀ s : GetHashState,
        (HandleGetHashError f now s).gethashErrorCount = s.gethashErrorCount + 1 ∧
        (HandleGetHashError f now s).nextGetHashTime =
          some (now + errorBackOff f (s.gethashErrorCount + 1))) ∧
    (∀ n, (iterGetHashError f now n).gethashErrorCount = n) ∧
    (iterGetHashError f now 0).nextGetHashTime = none ∧
    (∀ n, (iterGetHashError f now (n + 1)).nextGetHashTime =
        some (now + errorBackOff f (n + 1))) ∧
    errorBackOff f 1 = 60 ∧
    (∀ n, 2 ≤ n → n ≤ 5 →
        now + 2 ^ (n - 2) * 1800 ≤ now + errorBackOff f n ∧
        now + errorBackOff f n ≤ now + 2 ^ (n - 1) * 1800) ∧
    (∀ n, 6 ≤ n → now + errorBackOff f n = now + 28800) := by
  have hcount : ∀ n, (iterGetHashError f now n).gethashErrorCount = n := by
    intro n
    induction n with
    | zero => rfl
    | succ k ih => simp [iterGetHashError, HandleGetHashError, ih]
  refine ⟨fun s => ⟨rfl, rfl⟩, hcount, rfl, ?_, errorBackOff_le_one f 1 le_rfl, ?_, ?_⟩
  · intro n
    simp [iterGetHashError, HandleGetHashError, hcount n]
  · intro n h2 h5
    constructor
    · linarith [errorBackOff_lower f hf0 n h2 h5]
    · linarith [le_of_lt (errorBackOff_upper f hf1 n h2 h5)]
  · intro n h
    rw [errorBackOff_max f n h]

/-- Witness for C8 at fuzz factor 0 and `now = 0`: the first error sets the
next-allowed time to 60 s. -/
theorem C8_gethash_amended_witness :
    (iterGetHashError 0 0 1).nextGetHashTime = some (0 + errorBackOff 0 1) ∧
    errorBackOff 0 1 = 60 := by
  have h := C8_gethash_amended 0 0 le_rfl zero_lt_one
  exact ⟨h.2.2.2.1 0, h.2.2.2.2.1⟩

/-- C8 fails as stated: with fuzz factor 0 and `now = 0`, after 2 errors
the next-allowed time is `some 1800` (30 min), below the claimed lower
bound `now + 2^(2-1)*30 min = 3600 s`. -/
theorem C8_gethash_counterexample :
    (iterGetHashError 0 0 2).gethashErrorCount = 2 ∧
    (iterGetHashError 0 0 2).nextGetHashTime = some 1800 ∧
    (0 : ℚ) + 1800 < 0 + 2 ^ (2 - 1) * 1800 := by
  refine ⟨rfl, ?_, by norm_num⟩
  norm_num [iterGetHashError, HandleGetHashError, errorBackOff]

/-! ## Claims about the pure request-formatting functions (C6, C7) -/

theorem strIsEmpty_nil : ("" : String).isEmpty = true := rfl

theorem strIsEmpty_false (s : String) (h : ¬ s = "") : s.isEmpty = false := by
  rw [Bool.eq_false_iff]
  intro hh
  exact h ((String.isEmpty_iff s).mp hh)

/-- C6: `FormatList` is a pure function of (name, adds, subs) satisfying
the four shape cases - both empty, adds only, subs only, both present -
and yields the test's literal string on the concrete test vector. -/
theorem C6_FormatList (name adds subs : String) :
    (adds = "" → subs = "" → FormatList ⟨name, adds, subs⟩ = name ++ ";\n") ∧
    (¬ adds = "" → subs = "" →
        FormatList ⟨name, adds, subs⟩ = name ++ ";a:" ++ adds ++ "\n") ∧
    (adds = "" → ¬ subs = "" →
        FormatList ⟨name, adds, subs⟩ = name ++ ";s:" ++ subs ++ "\n") ∧
    (¬ adds = "" → ¬ subs = "" →
        FormatList ⟨name, adds, subs⟩ =
          name ++ ";a:" ++ adds ++ ":s:" ++ subs ++ "\n") ∧
    FormatList ⟨"goog-phish-shavar", "1,4,6,8-20,99", "16,32,64-96"⟩ =
      "goog-phish-shavar;a:1,4,6,8-20,99:s:16,32,64-96\n" := by
  refine ⟨?_, ?_, ?_, ?_, by decide⟩
  · intro ha hs
    subst ha; subst hs
    apply String.ext
    simp [FormatList, strIsEmpty_nil, String.data_append]
  · intro ha hs
    subst hs
    apply String.ext
    simp [FormatList, strIsEmpty_false adds ha, strIsEmpty_nil, String.data_append]
  · intro ha hs
    subst ha
    apply String.ext
    simp [FormatList, strIsEmpty_nil, strIsEmpty_false subs hs, String.data_append]
  · intro ha hs
    apply String.ext
    simp [FormatList, strIsEmpty_false adds ha, strIsEmpty_false subs hs,
      String.data_append]

/-- Witness for C6 on the test's adds-and-subs vector. -/
theorem C6_FormatList_witness :
    FormatList ⟨"goog-phish-shavar", "1,4,6,8-20,99", "16,32,64-96"⟩ =
      "goog-phish-shavar" ++ ";a:" ++ "1,4,6,8-20,99" ++ ":s:" ++ "16,32,64-96" ++ "\n" :=
  (C6_FormatList "goog-phish-shavar" "1,4,6,8-20,99" "16,32,64-96").2.2.2.1
    (by decide) (by decide)

theorem NextChunkUrl_query (q u : String) (hq : ¬ q = "") :
    NextChunkUrl q u =
      if strContainsChar (NextChunkUrl "" u) '?' then NextChunkUrl "" u ++ "&" ++ q
      else NextChunkUrl "" u ++ "?" ++ q := by
  simp [NextChunkUrl, strIsEmpty_nil, strIsEmpty_false q hq]

/-- C7: `NextChunkUrl` keeps a fragment that already starts with
`http://` or `https://` unchanged and otherwise prepends `https://`; a
non-empty additional query is appended with `&` when the resulting URL
already has a query string and otherwise starts a new query with the bare
token; the test's eight concrete vectors evaluate as expected. -/
theorem C7_NextChunkUrl (q u : String) :
    ((strStartsWith u "http://" || strStartsWith u "https://") = true →
        NextChunkUrl "" u = u) ∧
    ((strStartsWith u "http://" || strStartsWith u "https://") = false →
        NextChunkUrl "" u = "https://" ++ u) ∧
    (¬ q = "" → strContainsChar (NextChunkUrl "" u) '?' = true →
        NextChunkUrl q u = NextChunkUrl "" u ++ "&" ++ q) ∧
    (¬ q = "" → strContainsChar (NextChunkUrl "" u) '?' = false →
        NextChunkUrl q u = NextChunkUrl "" u ++ "?" ++ q) ∧
    NextChunkUrl "" "localhost:1234/foo/bar?foo" = "https://localhost:1234/foo/bar?foo" ∧
    NextChunkUrl "" "http://localhost:1234/foo/bar?foo" = "http://localhost:1234/foo/bar?foo" ∧
    NextChunkUrl "" "https://localhost:1234/foo/bar?foo" = "https://localhost:1234/foo/bar?foo" ∧
    NextChunkUrl "" "https://localhost:1234/foo/bar" = "https://localhost:1234/foo/bar" ∧
    NextChunkUrl "additional_query" "localhost:1234/foo/bar?foo" =
      "https://localhost:1234/foo/bar?foo&additional_query" ∧
    NextChunkUrl "additional_query" "http://localhost:1234/foo/bar?foo" =
      "http://localhost:1234/foo/bar?foo&additional_query" ∧
    NextChunkUrl "additional_query" "https://localhost:1234/foo/bar?foo" =
      "https://localhost:1234/foo/bar?foo&additional_query" ∧
    NextChunkUrl "additional_query" "https://localhost:1234/foo/bar" =
      "https://localhost:1234/foo/bar?additional_query" := by
  refine ⟨?_, ?_, ?_, ?_, by decide, by decide, by decide, by decide,
    by decide, by decide, by decide, by decide⟩
  · intro h
    simp [NextChunkUrl, strIsEmpty_nil, h]
  · intro h
    simp [NextChunkUrl, strIsEmpty_nil, h]
  · intro hq h2
    rw [NextChunkUrl_query q u hq, if_pos h2]
  · intro hq h2
    rw [NextChunkUrl_query q u hq, if_neg (by simp [h2])]

/-- Witness for C7 on the schemeless fragment with an existing query and
the additional-query configuration of the test. -/
theorem C7_NextChunkUrl_witness :
    NextChunkUrl "additional_query" "localhost:1234/foo/bar?foo" =
      NextChunkUrl "" "localhost:1234/foo/bar?foo" ++ "&" ++ "additional_query" :=
  (C7_NextChunkUrl "additional_query" "localhost:1234/foo/bar?foo").2.2.1
    (by decide) (by decide)

/-! ## Claims about the update request (C10) and the database-error path (C5) -/

theorem buildBodyAux_eq (ls : List SBListChunkRanges) (fp fm : Bool) :
    buildBodyAux ls fp fm =
      (ls.map FormatList).foldr (· ++ ·) "" ++
      (if fp || ls.any (fun l => l.name == kPhishingList) then ""
       else FormatList ⟨kPhishingList, "", ""⟩) ++
      (if fm || ls.any (fun l => l.name == kMalwareList) then ""
       else FormatList ⟨kMalwareList, "", ""⟩) := by
  induction ls generalizing fp fm with
  | nil =>
      apply String.ext
      simp [buildBodyAux, String.data_append]
  | cons l rest ih =>
      simp only [buildBodyAux, List.map_cons, List.foldr_cons, List.any_cons, ih]
      simp [String.append_assoc, Bool.or_assoc]

/-- C10: for every update cycle started from idle with a readable database,
the machine issues exactly the primary `/downloads` request whose POST body
is one formatted line per delegate-reported list in delegate order followed
by an empty-range line for each default list (phishing, then malware) that
the delegate did not report; with no delegate lists the body is exactly
`"goog-phish-shavar;\ngoog-malware-shavar;\n"`. -/
theorem C10_update_request_body (cfg : ProtocolConfig) (s : PMState)
    (ranges : List SBListChunkRanges) (h : s.phase = .idle) :
    buildUpdateBody ranges = specUpdateBody ranges ∧
    (step cfg s (.startUpdate ranges false)).2 =
      [.call .updateStarted, .call .getChunks,
       .request (updateUrl cfg cfg.urlBase) (specUpdateBody ranges)] ∧
    buildUpdateBody [] = kDefaultUpdateBody ∧
    buildUpdateBody
        [⟨kPhishingList, "adds_phish", "subs_phish"⟩,
         ⟨"unknown_list", "adds_unknown", "subs_unknown"⟩] =
      "goog-phish-shavar;a:adds_phish:s:subs_phish\nunknown_list;a:adds_unknown:s:subs_unknown\ngoog-malware-shavar;\n" := by
  have hb : buildUpdateBody ranges = specUpdateBody ranges := by
    unfold buildUpdateBody specUpdateBody
    rw [buildBodyAux_eq]
    simp
  refine ⟨hb, ?_, by decide, by decide⟩
  obtain ⟨ph, rd, rb, ec, us⟩ := s
  have h' : ph = Phase.idle := h
  subst h'
  simp [step, hb]

/-- Witness for C10 from the idle initial state with no delegate lists. -/
theorem C10_update_request_body_witness :
    buildUpdateBody [] = specUpdateBody [] ∧ buildUpdateBody [] = kDefaultUpdateBody :=
  ⟨(C10_update_request_body testConfig initState [] rfl).1,
   (C10_update_request_body testConfig initState [] rfl).2.2.1⟩

/-- C5: when GetChunks reports a database error, the cycle issues no
network request, calls `UpdateFinished(false)` exactly once, increments the
update error count, and still schedules a next update. -/
theorem C5_database_error (cfg : ProtocolConfig) (s : PMState)
    (ranges : List SBListChunkRanges) (h : s.phase = .idle) :
    (step cfg s (.startUpdate ranges true)).2 =
      [.call .updateStarted, .call .getChunks, .call (.updateFinished false)] ∧
    (step cfg s (.startUpdate ranges true)).2.countP isRequestOut = 0 ∧
    countFinishedCalls (step cfg s (.startUpdate ranges true)).2 false = 1 ∧
    (step cfg s (.startUpdate ranges true)).1.updateErrorCount =
      s.updateErrorCount + 1 ∧
    (step cfg s (.startUpdate ranges true)).1.updateScheduled = true := by
  obtain ⟨ph, rd, rb, ec, us⟩ := s
  have h' : ph = Phase.idle := h
  subst h'
  exact ⟨rfl, rfl, rfl, rfl, rfl⟩

/-- Witness for C5 from the idle initial state. -/
theorem C5_database_error_witness :
    (step testConfig initState (.startUpdate [] true)).2 =
      [.call .updateStarted, .call .getChunks, .call (.updateFinished false)] :=
  (C5_database_error testConfig initState [] rfl).1

/-! ## Claims about the backup-request path (C3, C2) -/

/-- C3: every failure of the primary update request - transport failure or
non-2xx status - issues exactly one backup request carrying the same body
and the same query parameters, addressed at the failure-kind-specific
backup URL base (non-2xx status: "http"; OS-level network-down errors:
"network"; any other transport failure, e.g. a connection reset: "connect");
a subsequent failure of the backup request ends the cycle with
`UpdateFinished(false)` and the backoff error path, issuing no third
request. -/
theorem C3_backup_on_failure (cfg : ProtocolConfig) (s : PMState) (netOk : Bool)
    (e : Int) (code : ℕ) (body : String) (h : s.phase = .waitingPrimary)
    (hfail : ¬(netOk = true ∧ code = 200)) :
    (step cfg s (.fetchDone netOk e code body)).2 =
      [.request (updateUrl cfg (backupBaseFor cfg netOk e)) s.requestBody] ∧
    (step cfg s (.fetchDone netOk e code body)).1.phase = .waitingBackup ∧
    (netOk = true → backupBaseFor cfg netOk e = cfg.backupHttpBase) ∧
    (netOk = false → e = kErrInternetDisconnected ∨ e = kErrNetworkChanged →
        backupBaseFor cfg netOk e = cfg.backupNetworkBase) ∧
    (netOk = false → ¬ e = kErrInternetDisconnected → ¬ e = kErrNetworkChanged →
        backupBaseFor cfg netOk e = cfg.backupConnectBase) ∧
    (∀ (s' : PMState) (netOk' : Bool) (e' : Int) (code' : ℕ) (body' : String),
        s'.phase = .waitingBackup → ¬(netOk' = true ∧ code' = 200) →
        (step cfg s' (.fetchDone netOk' e' code' body')).2 =
          [.call (.updateFinished false)] ∧
        (step cfg s' (.fetchDone netOk' e' code' body')).1.updateErrorCount =
          s'.updateErrorCount + 1 ∧
        (step cfg s' (.fetchDone netOk' e' code' body')).1.updateScheduled = true ∧
        (step cfg s' (.fetchDone netOk' e' code' body')).1.phase = .idle) := by
  have hcond : ∀ (nk : Bool) (c : ℕ), ¬(nk = true ∧ c = 200) → (nk && c == 200) = false := by
    intro nk c hf
    cases nk with
    | false => rfl
    | true =>
        have hc : ¬ c = 200 := fun hc => hf ⟨rfl, hc⟩
        simp [hc]
  obtain ⟨ph, rd, rb, ec, us⟩ := s
  have h' : ph = Phase.waitingPrimary := h
  subst h'
  refine ⟨?_, ?_, ?_, ?_, ?_, ?_⟩
  · simp [step, hcond netOk code hfail, issueBackup]
  · simp [step, hcond netOk code hfail, issueBackup]
  · intro hok
    subst hok
    simp [backupBaseFor]
  · intro hok hnet
    subst hok
    simp [backupBaseFor, hnet]
  · intro hok h1 h2
    subst hok
    simp [backupBaseFor, h1, h2]
  · intro s' netOk' e' code' body' h' hfail'
    obtain ⟨ph', rd', rb', ec', us'⟩ := s'
    have h'' : ph' = Phase.waitingBackup := h'
    subst h''
    refine ⟨?_, ?_, ?_, ?_⟩ <;>
      simp [step, hcond netOk' code' hfail', failCycle]

/-- Witness for C3: a connection reset of the primary request goes to the
"connect" backup URL base with the same body. -/
theorem C3_backup_on_failure_witness :
    (step testConfig primaryWaiting
        (.fetchDone false kErrConnectionReset 0 "")).2 =
      [.request (updateUrl testConfig
          (backupBaseFor testConfig false kErrConnectionReset))
        primaryWaiting.requestBody] ∧
    backupBaseFor testConfig false kErrConnectionReset =
      testConfig.backupConnectBase := by
  have h := C3_backup_on_failure testConfig primaryWaiting false
    kErrConnectionReset 0 "" rfl (by decide)
  exact ⟨h.1, h.2.2.2.2.1 rfl (by decide) (by decide)⟩

/-- C2 fails as stated: on an HTTP-200 primary update response whose body
fails the response grammar (`"THIS_IS_A_BAD_RESPONSE"`), the cycle does
NOT terminate with `UpdateFinished(false)`: it issues a backup request to
the "http" backup URL base, and when that backup succeeds the cycle ends
with `UpdateFinished(true)` (as the unit test
`UpdateResponseBadBodyBackupSuccess` expects). -/
theorem C2_counterexample :
    (run testConfig initState
        [.startUpdate [] false,
         .fetchDone true 0 200 "THIS_IS_A_BAD_RESPONSE"]).2 =
      [[.call .updateStarted, .call .getChunks,
        .request (updateUrl testConfig testConfig.urlBase) kDefaultUpdateBody],
       [.request (updateUrl testConfig testConfig.backupHttpBase)
          kDefaultUpdateBody]] ∧
    countFinishedCalls (run testConfig initState
        [.startUpdate [] false,
         .fetchDone true 0 200 "THIS_IS_A_BAD_RESPONSE"]).2.flatten false = 0 ∧
    countFinishedCalls (run testConfig initState
        [.startUpdate [] false,
         .fetchDone true 0 200 "THIS_IS_A_BAD_RESPONSE",
         .fetchDone true 0 200 ""]).2.flatten true = 1 := by
  refine ⟨by decide, by decide, by decide⟩

/-- C2 (amended): a parse failure of an HTTP-200 primary update response
triggers exactly one backup request, addressed at the "http" backup URL
base with the same body, and does not itself call `UpdateFinished`; the
cycle then ends with `UpdateFinished(true)` when the backup succeeds with a
valid body, and with `UpdateFinished(false)` when the backup also fails. -/
theorem C2_bad_body_amended (cfg : ProtocolConfig) (s : PMState) (e : Int)
    (body : String) (h : s.phase = .waitingPrimary)
    (hbad : parseUpdateResponse body = none) :
    (step cfg s (.fetchDone true e 200 body)).2 =
      [.request (updateUrl cfg cfg.backupHttpBase) s.requestBody] ∧
    (step cfg s (.fetchDone true e 200 body)).1.phase = .waitingBackup ∧
    countFinishedCalls (step cfg s (.fetchDone true e 200 body)).2 false = 0 ∧
    (∀ s' : PMState, s'.phase = .waitingBackup →
        (step cfg s' (.fetchDone true e 200 "")).2 =
          [.call (.updateFinished true)] ∧
        (step cfg s' (.fetchDone true e 200 "")).1.updateScheduled = true) ∧
    (∀ (s' : PMState) (netOk' : Bool) (e' : Int) (code' : ℕ) (body' : String),
        s'.phase = .waitingBackup → ¬(netOk' = true ∧ code' = 200) →
        (step cfg s' (.fetchDone netOk' e' code' body')).2 =
          [.call (.updateFinished false)]) := by
  obtain ⟨ph, rd, rb, ec, us⟩ := s
  have h' : ph = Phase.waitingPrimary := h
  subst h'
  refine ⟨?_, ?_, ?_, ?_, ?_⟩
  · simp [step, hbad, issueBackup]
  · simp [step, hbad, issueBackup]
  · simp [step, hbad, issueBackup, countFinishedCalls]
  · intro s' hs'
    obtain ⟨ph', rd', rb', ec', us'⟩ := s'
    have h'' : ph' = Phase.waitingBackup := hs'
    subst h''
    constructor <;>
      simp [step, parseUpdateResponse, parseUpdateLinesAux, splitOnChar,
        applyUpdateResponse, issueNextChunkOrFinish, finishCycleOk]
  · intro s' netOk' e' code' body' hs' hfail'
    obtain ⟨ph', rd', rb', ec', us'⟩ := s'
    have h'' : ph' = Phase.waitingBackup := hs'
    subst h''
    have hc : (netOk' && code' == 200) = false := by
      cases netOk' with
      | false => rfl
      | true =>
          have hcc : ¬ code' = 200 := fun hcc => hfail' ⟨rfl, hcc⟩
          simp [hcc]
    simp [step, hc, failCycle]

/-- Witness for C2's amended statement at the bad-body test input. -/
theorem C2_bad_body_amended_witness :
    (step testConfig primaryWaiting
        (.fetchDone true 0 200 "THIS_IS_A_BAD_RESPONSE")).2 =
      [.request (updateUrl testConfig testConfig.backupHttpBase)
        primaryWaiting.requestBody] :=
  (C2_bad_body_amended testConfig primaryWaiting 0 "THIS_IS_A_BAD_RESPONSE"
    rfl (by decide)).1

/-! ## Claims about the reset directive (C9) and redirect sequencing (C4) -/

/-- C9 fails as stated: the response body
`"r:pleasereset\nTHIS_IS_A_BAD_RESPONSE"` contains the line
`r:pleasereset` yet the cycle calls `ResetDatabase` zero times (the parse
is atomic, the malformed line rejects the whole response) and does not
finish with `UpdateFinished(true)` when the backup fails; and the valid
body `"r:pleasereset\ni:goog-phish-shavar\nu:chunk-server.example.com/x\n"`
calls `ResetDatabase` exactly once but the cycle finishes with
`UpdateFinished(false)` when its redirect chunk fetch fails. -/
theorem C9_counterexample :
    countResetCalls (run testConfig initState
        [.startUpdate [] false,
         .fetchDone true 0 200 "r:pleasereset\nTHIS_IS_A_BAD_RESPONSE",
         .fetchDone true 0 404 ""]).2.flatten = 0 ∧
    countFinishedCalls (run testConfig initState
        [.startUpdate [] false,
         .fetchDone true 0 200 "r:pleasereset\nTHIS_IS_A_BAD_RESPONSE",
         .fetchDone true 0 404 ""]).2.flatten true = 0 ∧
    countResetCalls (run testConfig initState
        [.startUpdate [] false,
         .fetchDone true 0 200
           "r:pleasereset\ni:goog-phish-shavar\nu:chunk-server.example.com/x\n",
         .fetchDone true 0 404 ""]).2.flatten = 1 ∧
    countFinishedCalls (run testConfig initState
        [.startUpdate [] false,
         .fetchDone true 0 200
           "r:pleasereset\ni:goog-phish-shavar\nu:chunk-server.example.com/x\n",
         .fetchDone true 0 404 ""]).2.flatten true = 0 ∧
    countFinishedCalls (run testConfig initState
        [.startUpdate [] false,
         .fetchDone true 0 200
           "r:pleasereset\ni:goog-phish-shavar\nu:chunk-server.example.com/x\n",
         .fetchDone true 0 404 ""]).2.flatten false = 1 := by
  refine ⟨by decide, by decide, by decide, by decide, by decide⟩

/-- C9 (amended): for every update response that parses successfully with
the reset directive present, the response-processing step calls
`ResetDatabase` exactly once, independent of which delete or redirect
directives are also present; when the response holds no redirects the same
step finishes the cycle with `UpdateFinished(true)` and schedules the next
update (in particular for the body `"r:pleasereset\n"` alone). -/
theorem C9_reset_amended (cfg : ProtocolConfig) (s : PMState) (body : String)
    (pu : ParsedUpdate) (h : s.phase = .waitingPrimary)
    (hp : parseUpdateResponse body = some pu) (hr : pu.reset = true) :
    countResetCalls (step cfg s (.fetchDone true 0 200 body)).2 = 1 ∧
    (pu.redirects = [] →
        countFinishedCalls (step cfg s (.fetchDone true 0 200 body)).2 true = 1 ∧
        (step cfg s (.fetchDone true 0 200 body)).1.updateScheduled = true) := by
  obtain ⟨rst, nis, dels, reds⟩ := pu
  have hr' : rst = true := hr
  subst hr'
  obtain ⟨ph, rd, rb, ec, us⟩ := s
  have h' : ph = Phase.waitingPrimary := h
  subst h'
  constructor
  · cases dels <;> cases reds <;>
      simp [step, hp, applyUpdateResponse, issueNextChunkOrFinish, finishCycleOk,
        countResetCalls, List.countP_append]
  · intro hred
    subst hred
    cases dels <;>
      simp [step, hp, applyUpdateResponse, issueNextChunkOrFinish, finishCycleOk,
        countFinishedCalls, List.countP_append]

/-- Witness for C9's amended statement on the reset-only response body. -/
theorem C9_reset_amended_witness :
    countResetCalls (step testConfig primaryWaiting
        (.fetchDone true 0 200 "r:pleasereset\n")).2 = 1 :=
  (C9_reset_amended testConfig primaryWaiting "r:pleasereset\n"
    ⟨true, none, [], []⟩ rfl (by decide) rfl).1

theorem step_request_count (cfg : ProtocolConfig) (s : PMState) (e : Event) :
    ((step cfg s e).2.countP isRequestOut) ≤ 1 := by
  obtain ⟨ph, rd, rb, ec, us⟩ := s
  cases e <;> cases ph <;>
    simp only [step] <;>
    (repeat' split) <;>
    simp [failCycle, finishCycleOk, issueNextChunkOrFinish, issueBackup,
      applyUpdateResponse, isRequestOut, List.countP_append, List.countP_cons,
      List.countP_nil] <;>
    (repeat' split) <;>
    simp [isRequestOut, List.countP_cons, List.countP_nil]

/-- C4: on the update response with two redirect directives for the same
list, at most one chunk fetch is outstanding at any time: the only outputs
are, in order, the primary request, the first chunk fetch, the first
`AddChunks`, the second chunk fetch (issued only by the step processing the
first `AddChunks` completion callback), the second `AddChunks`, and
`UpdateFinished(true)` (emitted only by the step processing the second
completion); the next update is not scheduled while either `AddChunks`
completion is pending; and in general no single step of the machine emits
more than one network request. -/
theorem C4_redirect_sequencing :
    (run testConfig initState mrEvents).2 =
      [[.call .updateStarted, .call .getChunks,
        .request (updateUrl testConfig testConfig.urlBase) kDefaultUpdateBody],
       [.request "https://redirect-server.example.com/one" ""],
       [.call (.addChunks "goog-phish-shavar"
          [⟨true, 4, 4, "host\x01aaaa".data⟩])],
       [.request "https://redirect-server.example.com/two" ""],
       [.call (.addChunks "goog-phish-shavar"
          [⟨true, 5, 4, "host\x01bbbb".data⟩])],
       [.call (.updateFinished true)]] ∧
    (run testConfig initState (mrEvents.take 3)).1.updateScheduled = false ∧
    (run testConfig initState (mrEvents.take 5)).1.updateScheduled = false ∧
    (run testConfig initState mrEvents).1.updateScheduled = true ∧
    (∀ (cfg : ProtocolConfig) (s : PMState) (e : Event),
        ((step cfg s e).2.countP isRequestOut) ≤ 1) := by
  exact ⟨by decide, by decide, by decide, by decide, step_request_count⟩

end SafeBrowsing
